import Mathlib

/-!
Verification of the text-to-sketch rendering core of `src/main.py`.

The rendering core is `generate_sketch_svg(prompt, width, height, seed, theme)`
(src/main.py lines 156-250) together with its helpers `rng`, `jitter`,
`rough_line`, `rough_rect`, `rough_circle`, `text_el` and the `THEMES` table
(lines 85-153).  The embedding below translates that code into Lean:

* Numbers are modelled as exact rationals (`ℚ`).  Python computes the jittered
  geometry in IEEE doubles; none of the verified properties depend on the
  digits a coordinate rounds to, only on the structure of the emitted markup
  and on which inputs the computation reads.  To keep every definition
  kernel-computable we use `mkRat`-based arithmetic wrappers (`qAdd`, ...)
  instead of the `@[irreducible]` library operations.
* Python's `random.Random` is an external library, not code of this repository.
  The spec (section 4.1) states that any deterministic generator seeded once
  from the integer seed is a faithful implementation, so it is modelled by a
  linear congruential generator threaded in state-passing style.
* Python's built-in `hash` on strings is salted per process
  (PYTHONHASHSEED); the model makes that explicit by giving the whole render
  an extra `salt` argument consumed only by `pyHash`.
* Each `f"..."` template of the source is reproduced as string concatenation,
  with `{v:.1f}` rendered by `fmt1` (fixed-point, one digit, round half to
  even) and `{v}` on integers rendered by `toString`.
-/

set_option maxRecDepth 200000

/-- Kernel-computable rational addition (the library `Rat.add` is
`@[irreducible]`, which blocks `decide`); `mkRat` normalizes, so the value
agrees with the field operations on `ℚ`. -/
def qAdd (a b : ℚ) : ℚ := mkRat (a.num * b.den + b.num * a.den) (a.den * b.den)

/-- Kernel-computable rational subtraction. -/
def qSub (a b : ℚ) : ℚ := mkRat (a.num * b.den - b.num * a.den) (a.den * b.den)

/-- Kernel-computable rational multiplication. -/
def qMul (a b : ℚ) : ℚ := mkRat (a.num * b.num) (a.den * b.den)

/-- Kernel-computable rational inverse. -/
def qInv (b : ℚ) : ℚ :=
  if Rat.blt b 0 then mkRat (-(b.den : Int)) b.num.natAbs else mkRat b.den b.num.natAbs

/-- Kernel-computable rational division. -/
def qDiv (a b : ℚ) : ℚ := qMul a (qInv b)

/-- Floor of a rational, via flooring integer division. -/
def qfl (q : ℚ) : Int := q.num.fdiv (q.den : Int)

/-- Round a rational to the nearest integer, halves to even (the rounding mode
of Python's fixed-point formatting). -/
def rheInt (q : ℚ) : Int :=
  let fl := qfl q
  let fr := qSub q (mkRat fl 1)
  if Rat.blt fr (mkRat 1 2) then fl
  else if Rat.blt (mkRat 1 2) fr then fl + 1
  else if fl % 2 = 0 then fl else fl + 1

/-- Modelled from the spec: formatting of a nonnegative value by the runtime's
`{v:.1f}` fixed-point template (one fractional digit). -/
def fmt1n (q : ℚ) : String :=
  let n := (rheInt (qMul q (mkRat 10 1))).toNat
  toString (n / 10) ++ "." ++ toString (n % 10)

/-- Modelled from the spec: the `{v:.1f}` template of the source's f-strings,
for values of either sign, over the exact-rational number model.  CPython
converts an integer-typed value to a binary64 float before formatting it and
raises `OverflowError` beyond the double range (reachable for the caption's
`height - 12`); that error path is modelled separately by `floatConvertible`,
`renderConvertible` and `generate_sketch_svg_checked` below. -/
def fmt1 (q : ℚ) : String :=
  if Rat.blt q 0 then "-" ++ fmt1n (Rat.neg q) else fmt1n q

/-- `"\n".join(parts)` of Python (src/main.py lines 105, 117, 134, 250). -/
def joinNl : List String → String
  | [] => ""
  | [a] => a
  | a :: rest => a ++ "\n" ++ joinNl rest

/-- `" ".join(pts)` of Python (src/main.py line 133). -/
def joinSp : List String → String
  | [] => ""
  | [a] => a
  | a :: rest => a ++ " " ++ joinSp rest

/-- Python string slicing `s[:n]` (src/main.py line 247). -/
def pyTake (n : Nat) (s : String) : String := String.mk (s.toList.take n)

/-- Python `s.lower()` (src/main.py line 163); ASCII case folding, which is all
the keyword matching needs. -/
def pyLower (s : String) : String := String.mk (s.toList.map Char.toLower)

/-- Python `s.replace(pat, rep)` for a one-character needle, the only form the
source uses (src/main.py line 138). -/
def replaceChar (s : String) (pat : Char) (rep : String) : String :=
  String.mk (s.toList.foldr (fun c acc => if c = pat then rep.toList ++ acc else c :: acc) [])

/-- The escaping of `text_el`: `content.replace("<", "&lt;").replace(">", "&gt;")`
(src/main.py line 138). -/
def pyEscape (s : String) : String :=
  replaceChar (replaceChar s '<' "&lt;") '>' "&gt;"

/-- Boolean substring test on character lists: does `hay` contain `needle`? -/
def containsL (needle : List Char) : List Char → Bool
  | [] => needle.isEmpty
  | c :: t => needle.isPrefixOf (c :: t) || containsL needle t

/-- Python's `needle in hay` on strings (src/main.py lines 164-169). -/
def containsSub (hay needle : String) : Bool := containsL needle.toList hay.toList

/-- Number of (possibly overlapping) occurrences of `needle` in `hay`. -/
def countOccL (needle : List Char) : List Char → Nat
  | [] => 0
  | c :: t => (if needle.isPrefixOf (c :: t) then 1 else 0) + countOccL needle t

/-- Number of occurrences of the substring `needle` in the string `hay`. -/
def countOcc (hay needle : String) : Nat := countOccL needle.toList hay.toList

/-- Python `range(start, stop, step)` for a positive step. -/
def pyRange (start stop step : Nat) : List Nat :=
  List.range' start ((stop - start + step - 1) / step) step

/-- The pseudo-random generator state.  `random.Random` is stdlib code outside
this repository; per spec section 4.1 any deterministic, sequentially advanced
generator is a faithful model, so a single LCG word of state suffices. -/
structure Rng where
  state : Nat
deriving DecidableEq

/-- One LCG step (modelled stand-in for advancing the stdlib Mersenne
Twister). -/
def lcgNext (s : Nat) : Nat := (s * 1103515245 + 12345) % 2147483648

/-- `rng(seed)` of src/main.py lines 85-87: builds the per-render generator
from the integer seed, deterministically. -/
def rng (seed : Int) : Rng := ⟨seed.natAbs % 2147483648⟩

/-- Modelled from the spec: `rnd.random()`, a uniform draw in [0,1) advancing
the generator. -/
def randQ (r : Rng) : ℚ × Rng :=
  let s := lcgNext r.state
  (mkRat s 2147483648, ⟨s⟩)

/-- Modelled from the spec: `rnd.randint(lo, hi)`, an integer draw in
[lo, hi] advancing the generator (the source only calls it with `lo ≤ hi`,
src/main.py line 233). -/
def randint (r : Rng) (lo hi : Int) : Int × Rng :=
  let s := lcgNext r.state
  (lo + (s : Int) % (hi - lo + 1), ⟨s⟩)

/-- `jitter(rnd, val, scale)` of src/main.py lines 90-91:
`val + (rnd.random() - 0.5) * scale`, over the exact-rational number model.
CPython first converts an integer `val` to a binary64 float here and raises
`OverflowError` beyond the double range; that error path is modelled
separately by `floatConvertible`, `renderConvertible` and
`generate_sketch_svg_checked` below. -/
def jitter (r : Rng) (val : ℚ) (scale : ℚ) : ℚ × Rng :=
  let (u, r1) := randQ r
  (qAdd val (qMul (qSub u (mkRat 1 2)) scale), r1)

/-- Modelled from the spec: a rational stand-in for the runtime's pi constant
used by `math.radians` (src/main.py line 128); no verified property depends on
its value. -/
def piQ : ℚ := mkRat 3141592653589793 1000000000000000

/-- `math.radians(x) = x * pi / 180` over the rational number model. -/
def radiansQ (x : ℚ) : ℚ := qDiv (qMul x piQ) (mkRat 180 1)

/-- Modelled from the spec: a computable rational stand-in for `math.cos`
(src/main.py line 130); a truncated series, as no verified property depends on
its value. -/
def cosQ (x : ℚ) : ℚ :=
  let x2 := qMul x x
  let x4 := qMul x2 x2
  let x6 := qMul x4 x2
  let x8 := qMul x4 x4
  qAdd (qSub (qAdd (qSub (mkRat 1 1) (qDiv x2 (mkRat 2 1))) (qDiv x4 (mkRat 24 1)))
    (qDiv x6 (mkRat 720 1))) (qDiv x8 (mkRat 40320 1))

/-- Modelled from the spec: a computable rational stand-in for `math.sin`
(src/main.py line 131). -/
def sinQ (x : ℚ) : ℚ :=
  let x2 := qMul x x
  let x3 := qMul x2 x
  let x5 := qMul x3 x2
  let x7 := qMul x5 x2
  qSub (qAdd (qSub x (qDiv x3 (mkRat 6 1))) (qDiv x5 (mkRat 120 1))) (qDiv x7 (mkRat 5040 1))

/-- One jittered stroke segment: the body of the `for i in range(2)` loop of
`rough_line` (src/main.py lines 99-104).  Each of the four endpoint
coordinates is jittered with scale 2.2, then formatted into the `<path>`
template with stroke width 1.8, rounded caps and opacity 0.9. -/
def seg (r : Rng) (x1 y1 x2 y2 : ℚ) (stroke : String) : String × Rng :=
  let (jx1, r) := jitter r x1 (mkRat 11 5)
  let (jy1, r) := jitter r y1 (mkRat 11 5)
  let (jx2, r) := jitter r x2 (mkRat 11 5)
  let (jy2, r) := jitter r y2 (mkRat 11 5)
  ("<path d=\"M " ++ fmt1 jx1 ++ "," ++ fmt1 jy1 ++ " L " ++ fmt1 jx2 ++ "," ++ fmt1 jy2
    ++ "\" stroke=\"" ++ stroke
    ++ "\" stroke-width=\"1.8\" fill=\"none\" stroke-linecap=\"round\" opacity=\"0.9\" />", r)

/-- `rough_line` of src/main.py lines 94-105: exactly two jittered segments
joined by a newline. -/
def rough_line (r : Rng) (x1 y1 x2 y2 : ℚ) (stroke : String) : String × Rng :=
  let (s1, r) := seg r x1 y1 x2 y2 stroke
  let (s2, r) := seg r x1 y1 x2 y2 stroke
  (s1 ++ "\n" ++ s2, r)

/-- `rough_rect` of src/main.py lines 108-117: an optional filled `<rect>` at
opacity 0.1 with corner radius 8, then the four edges as `rough_line`s in the
order top, right, bottom, left. -/
def rough_rect (r : Rng) (x y w h : ℚ) (stroke : String) (fill : Option String) :
    String × Rng :=
  let head : List String :=
    match fill with
    | some f =>
      ["<rect x=\"" ++ fmt1 x ++ "\" y=\"" ++ fmt1 y ++ "\" width=\"" ++ fmt1 w
        ++ "\" height=\"" ++ fmt1 h ++ "\" fill=\"" ++ f ++ "\" opacity=\"0.1\" rx=\"8\" />"]
    | none => []
  let (l1, r) := rough_line r x y (qAdd x w) y stroke
  let (l2, r) := rough_line r (qAdd x w) y (qAdd x w) (qAdd y h) stroke
  let (l3, r) := rough_line r (qAdd x w) (qAdd y h) x (qAdd y h) stroke
  let (l4, r) := rough_line r x (qAdd y h) x y stroke
  (joinNl (head ++ [l1, l2, l3, l4]), r)

/-- The inner loop of `rough_circle` (src/main.py lines 127-132): for each
angle `a` of the list, jitter the angle with scale 2 degrees, jitter the
radius with scale 1.5, and format the resulting point. -/
def circlePts (r : Rng) (cx cy rad : ℚ) : List Nat → List String × Rng
  | [] => ([], r)
  | a :: rest =>
    let (ja, r1) := jitter r (mkRat 0 1) (mkRat 2 1)
    let ang := radiansQ (qAdd ((a : Int) : ℚ) ja)
    let (jr, r2) := jitter r1 (mkRat 0 1) (mkRat 3 2)
    let rr := qAdd rad jr
    let x := qAdd cx (qMul rr (cosQ ang))
    let y := qAdd cy (qMul rr (sinQ ang))
    let (tail, r3) := circlePts r2 cx cy rad rest
    ((fmt1 x ++ "," ++ fmt1 y) :: tail, r3)

/-- The `<polyline>` template of src/main.py line 133: space-joined points,
no fill, stroke width 1.6, opacity 0.9. -/
def polylineEl (pts : List String) (stroke : String) : String :=
  "<polyline points=\"" ++ joinSp pts ++ "\" fill=\"none\" stroke=\"" ++ stroke
    ++ "\" stroke-width=\"1.6\" opacity=\"0.9\" />"

/-- `rough_circle` of src/main.py lines 120-134: an optional filled `<circle>`
at opacity 0.1, then two independently jittered polyline passes over the
angles `range(0, 360, 20)`. -/
def rough_circle (r : Rng) (cx cy rad : ℚ) (stroke : String) (fill : Option String) :
    String × Rng :=
  let head : List String :=
    match fill with
    | some f =>
      ["<circle cx=\"" ++ fmt1 cx ++ "\" cy=\"" ++ fmt1 cy ++ "\" r=\"" ++ fmt1 rad
        ++ "\" fill=\"" ++ f ++ "\" opacity=\"0.1\" />"]
    | none => []
  let (pts1, r) := circlePts r cx cy rad (pyRange 0 360 20)
  let (pts2, r) := circlePts r cx cy rad (pyRange 0 360 20)
  (joinNl (head ++ [polylineEl pts1 stroke, polylineEl pts2 stroke]), r)

/-- `text_el` of src/main.py lines 137-139: the `<text>` template with the
`<` and `>` of the content escaped. -/
def text_el (x y : ℚ) (content : String) (color : String) : String :=
  "<text x=\"" ++ fmt1 x ++ "\" y=\"" ++ fmt1 y ++ "\" fill=\"" ++ color
    ++ "\" font-family=\"Inter, system-ui, -apple-system, Segoe UI, Roboto\" font-size=\"14\" opacity=\"0.9\">"
    ++ pyEscape content ++ "</text>"

/-- A color triple of the `THEMES` table (src/main.py lines 142-153). -/
structure Palette where
  bg : String
  ink : String
  accent : String
deriving DecidableEq

/-- The `THEMES` table of src/main.py lines 142-153. -/
def THEMES : List (String × Palette) :=
  [("slate", ⟨"#0f172a", "#93c5fd", "#60a5fa"⟩),
   ("sand", ⟨"#f1f5f9", "#0f172a", "#64748b"⟩)]

/-- `THEMES.get(theme, THEMES["slate"])` of src/main.py line 158: dictionary
lookup defaulting to the slate palette. -/
def themesGet (theme : String) : Palette :=
  (((THEMES.find? (fun kv => kv.fst == theme)).map (fun kv => kv.snd)).getD
    ⟨"#0f172a", "#93c5fd", "#60a5fa"⟩)

/-- The six keyword-derived booleans of src/main.py lines 163-169. -/
structure Flags where
  header : Bool
  list : Bool
  form : Bool
  cards : Bool
  chart : Bool
  avatar : Bool
deriving DecidableEq

/-- The prompt classifier (src/main.py lines 163-169): lower-case the prompt
once, then test substring membership of each keyword set. -/
def classify (prompt : String) : Flags :=
  let p := pyLower prompt
  { header := [ "header", "title", "navbar", "hero" ].any (fun k => containsSub p k),
    list := [ "list", "items", "menu", "sidebar" ].any (fun k => containsSub p k),
    form := [ "form", "input", "search", "login", "button" ].any (fun k => containsSub p k),
    cards := [ "cards", "grid", "gallery", "images", "thumbnails", "card" ].any
      (fun k => containsSub p k),
    chart := [ "chart", "graph", "analytics" ].any (fun k => containsSub p k),
    avatar := [ "avatar", "profile", "user" ].any (fun k => containsSub p k) }

/-- The emission state threaded through the layout composer: the accumulated
markup fragments, the vertical cursor `y`, and the generator. -/
def LayoutSt : Type := List String × Int × Rng

/-- The header block (src/main.py lines 182-185): a filled rough rectangle of
height 60 over the full inner width, the "Header / Title" label, cursor
advance 80. -/
def headerBlock (margin inner_w : Int) (ink accent : String) (y : Int) (r : Rng) :
    List String × Int × Rng :=
  let (s1, r) := rough_rect r (margin : ℚ) (y : ℚ) (inner_w : ℚ) ((60 : Int) : ℚ) ink (some accent)
  ([s1, text_el ((margin + 16 : Int) : ℚ) ((y + 36 : Int) : ℚ) "Header / Title" ink], y + 80, r)

/-- The avatar block (src/main.py lines 188-191): a filled rough circle of
radius 24 at `(margin+32, y+32)`, the "User Name" label, cursor advance 72. -/
def avatarBlock (margin : Int) (ink accent : String) (y : Int) (r : Rng) :
    List String × Int × Rng :=
  let (s1, r) := rough_circle r ((margin + 32 : Int) : ℚ) ((y + 32 : Int) : ℚ) ((24 : Int) : ℚ)
    ink (some accent)
  ([s1, text_el ((margin + 72 : Int) : ℚ) ((y + 38 : Int) : ℚ) "User Name" ink], y + 72, r)

/-- The form block (src/main.py lines 194-200): filled outer rectangle of
height 120 with the "Input" label, unfilled inner field rectangle, "Button"
label, filled 120 by 28 button rectangle, cursor advance 140. -/
def formBlock (margin inner_w : Int) (ink accent : String) (y : Int) (r : Rng) :
    List String × Int × Rng :=
  let (s1, r) := rough_rect r (margin : ℚ) (y : ℚ) (inner_w : ℚ) ((120 : Int) : ℚ) ink (some accent)
  let t1 := text_el ((margin + 16 : Int) : ℚ) ((y + 28 : Int) : ℚ) "Input" ink
  let (s2, r) := rough_rect r ((margin + 12 : Int) : ℚ) ((y + 40 : Int) : ℚ)
    ((inner_w - 24 : Int) : ℚ) ((28 : Int) : ℚ) ink none
  let t2 := text_el ((margin + 16 : Int) : ℚ) ((y + 80 : Int) : ℚ) "Button" ink
  let (s3, r) := rough_rect r ((margin + 12 : Int) : ℚ) ((y + 90 : Int) : ℚ) ((120 : Int) : ℚ)
    ((28 : Int) : ℚ) ink (some accent)
  ([s1, t1, s2, t2, s3], y + 140, r)

/-- One cell of the cards grid (src/main.py lines 210-212): an unfilled rough
rectangle of height 100 and its "Card n" label. -/
def cardCell (r : Rng) (x : ℚ) (y : Int) (cw : ℚ) (n : Nat) (ink : String) :
    List String × Rng :=
  let (s, r) := rough_rect r x (y : ℚ) cw ((100 : Int) : ℚ) ink none
  ([s, text_el (qAdd x ((10 : Int) : ℚ)) ((y + 24 : Int) : ℚ) ("Card " ++ toString n) ink], r)

/-- The cards block (src/main.py lines 203-214): a 3 by 2 grid of unfilled
cells, gap 14, cell width `(inner_w - 28) / 3` (true division), row-major
labels "Card 1" .. "Card 6"; the cursor advances by 114 per row plus a
trailing 8. -/
def cardsBlock (margin inner_w : Int) (ink : String) (y : Int) (r : Rng) :
    List String × Int × Rng :=
  let cw : ℚ := qDiv ((inner_w - 14 * (3 - 1) : Int) : ℚ) ((3 : Int) : ℚ)
  let (c1, r) := cardCell r (qAdd (margin : ℚ) (qMul ((0 : Int) : ℚ) (qAdd cw ((14 : Int) : ℚ)))) y cw 1 ink
  let (c2, r) := cardCell r (qAdd (margin : ℚ) (qMul ((1 : Int) : ℚ) (qAdd cw ((14 : Int) : ℚ)))) y cw 2 ink
  let (c3, r) := cardCell r (qAdd (margin : ℚ) (qMul ((2 : Int) : ℚ) (qAdd cw ((14 : Int) : ℚ)))) y cw 3 ink
  let y := y + 114
  let (c4, r) := cardCell r (qAdd (margin : ℚ) (qMul ((0 : Int) : ℚ) (qAdd cw ((14 : Int) : ℚ)))) y cw 4 ink
  let (c5, r) := cardCell r (qAdd (margin : ℚ) (qMul ((1 : Int) : ℚ) (qAdd cw ((14 : Int) : ℚ)))) y cw 5 ink
  let (c6, r) := cardCell r (qAdd (margin : ℚ) (qMul ((2 : Int) : ℚ) (qAdd cw ((14 : Int) : ℚ)))) y cw 6 ink
  let y := y + 114
  (c1 ++ c2 ++ c3 ++ c4 ++ c5 ++ c6, y + 8, r)

/-- One row of the list block (src/main.py lines 220-222): the "List item n"
label and a divider rough line. -/
def listRow (margin inner_w : Int) (ink : String) (y : Int) (i : Nat) (r : Rng) :
    List String × Rng :=
  let t := text_el ((margin + 16 : Int) : ℚ) ((y + 24 + (i : Int) * 28 : Int) : ℚ)
    ("List item " ++ toString (i + 1)) ink
  let (l, r) := rough_line r ((margin + 10 : Int) : ℚ) ((y + 30 + (i : Int) * 28 : Int) : ℚ)
    ((margin + inner_w - 10 : Int) : ℚ) ((y + 30 + (i : Int) * 28 : Int) : ℚ) ink
  ([t, l], r)

/-- The list block (src/main.py lines 217-223): an unfilled outer rectangle of
height 160 and five label-plus-divider rows; cursor advance 180. -/
def listBlock (margin inner_w : Int) (ink : String) (y : Int) (r : Rng) :
    List String × Int × Rng :=
  let (s1, r) := rough_rect r (margin : ℚ) (y : ℚ) (inner_w : ℚ) ((28 * 5 + 20 : Int) : ℚ) ink none
  let (r0, r) := listRow margin inner_w ink y 0 r
  let (r1, r) := listRow margin inner_w ink y 1 r
  let (r2, r) := listRow margin inner_w ink y 2 r
  let (r3, r) := listRow margin inner_w ink y 3 r
  let (r4, r) := listRow margin inner_w ink y 4 r
  (s1 :: (r0 ++ r1 ++ r2 ++ r3 ++ r4), y + 28 * 5 + 40, r)

/-- One chart bar (src/main.py lines 233-236): a height drawn by
`randint(40, 130)` and a filled rough rectangle in the accent color. -/
def chartBar (margin : Int) (bw : ℚ) (accent : String) (y : Int) (i : Nat) (r : Rng) :
    List String × Rng :=
  let (bar_h, r) := randint r 40 (160 - 30)
  let bx := qAdd ((margin + 20 : Int) : ℚ) (qMul (((i : Nat) : Int) : ℚ) (qMul bw (mkRat 3 2)))
  let by_ := y + 160 - bar_h - 10
  let (s, r) := rough_rect r bx (by_ : ℚ) bw (bar_h : ℚ) accent (some accent)
  ([s], r)

/-- The chart block (src/main.py lines 226-237): an unfilled outer rectangle of
height 160 and six bars of width `inner_w / 9` spaced by 1.5 bar widths;
cursor advance 180. -/
def chartBlock (margin inner_w : Int) (ink accent : String) (y : Int) (r : Rng) :
    List String × Int × Rng :=
  let ch : Int := 160
  let (s1, r) := rough_rect r (margin : ℚ) (y : ℚ) (inner_w : ℚ) (ch : ℚ) ink none
  let bw : ℚ := qDiv ((inner_w : Int) : ℚ) (qMul ((6 : Int) : ℚ) (mkRat 3 2))
  let (b0, r) := chartBar margin bw accent y 0 r
  let (b1, r) := chartBar margin bw accent y 1 r
  let (b2, r) := chartBar margin bw accent y 2 r
  let (b3, r) := chartBar margin bw accent y 3 r
  let (b4, r) := chartBar margin bw accent y 4 r
  let (b5, r) := chartBar margin bw accent y 5 r
  (s1 :: (b0 ++ b1 ++ b2 ++ b3 ++ b4 ++ b5), y + ch + 20, r)

/-- The fallback block (src/main.py lines 240-245): a filled title rectangle of
height 60 with the "Title" label, then, 80 lower, an unfilled placeholder
rectangle of height 160 labeled "Your sketch will appear here". -/
def fallbackBlock (margin inner_w : Int) (ink accent : String) (y : Int) (r : Rng) :
    List String × Int × Rng :=
  let (s1, r) := rough_rect r (margin : ℚ) (y : ℚ) (inner_w : ℚ) ((60 : Int) : ℚ) ink (some accent)
  let t1 := text_el ((margin + 16 : Int) : ℚ) ((y + 36 : Int) : ℚ) "Title" ink
  let y := y + 80
  let (s2, r) := rough_rect r (margin : ℚ) (y : ℚ) (inner_w : ℚ) ((160 : Int) : ℚ) ink none
  let t2 := text_el ((margin + 16 : Int) : ℚ) ((y + 40 : Int) : ℚ) "Your sketch will appear here" ink
  ([s1, t1, s2, t2], y, r)

/-- Run one guarded layout step: when the flag is set, append the block's
fragments and take its new cursor and generator; otherwise leave the state
unchanged.  This is the `if wants_...:` pattern of src/main.py lines 182-245. -/
def emit (b : Bool) (blk : Int → Rng → List String × Int × Rng) (st : LayoutSt) : LayoutSt :=
  if b then
    let out := blk st.2.1 st.2.2
    (st.1 ++ out.1, out.2.1, out.2.2)
  else st

/-- The guarded layout steps of `generate_sketch_svg`, in source order
(src/main.py lines 182-245): header, avatar, form, cards, list, chart, then
the fallback guarded by the negated disjunction of all six flags. -/
def coreSteps (f : Flags) (margin inner_w : Int) (ink accent : String) :
    List (Bool × (Int → Rng → List String × Int × Rng)) :=
  [(f.header, headerBlock margin inner_w ink accent),
   (f.avatar, avatarBlock margin ink accent),
   (f.form, formBlock margin inner_w ink accent),
   (f.cards, cardsBlock margin inner_w ink),
   (f.list, listBlock margin inner_w ink),
   (f.chart, chartBlock margin inner_w ink accent),
   (!(f.header || f.list || f.form || f.cards || f.chart || f.avatar),
     fallbackBlock margin inner_w ink accent)]

/-- The opening `<svg ...>` tag of src/main.py line 173. -/
def svgOpenTag (width height : Int) : String :=
  "<svg xmlns=\"http://www.w3.org/2000/svg\" width=\"" ++ toString width ++ "\" height=\""
    ++ toString height ++ "\" viewBox=\"0 0 " ++ toString width ++ " " ++ toString height ++ "\">"

/-- The full-canvas background rectangle of src/main.py line 174. -/
def bgTag (bg : String) : String :=
  "<rect width=\"100%\" height=\"100%\" fill=\"" ++ bg ++ "\"/>"

/-- The layout state after all guarded blocks of `generate_sketch_svg`
(src/main.py lines 171-245): the base document fragments, cursor 24, margin
24, inner width `width - 48`, and the seven guarded steps folded in source
order. -/
def coreSt (seedVal : Int) (f : Flags) (width height : Int) (theme : String) : LayoutSt :=
  let palette := themesGet theme
  (coreSteps f 24 (width - 24 * 2) palette.ink palette.accent).foldl
    (fun st bb => emit bb.1 bb.2 st)
    ([svgOpenTag width height, bgTag palette.bg], 24, rng seedVal)

/-- The body of `generate_sketch_svg` after its inputs have been reduced to
the effective seed, the classification flags and the 80-character caption
text: the guarded blocks, then the caption 12px above the bottom edge
(src/main.py line 247), then the closing tag (line 249). -/
def sketchCore (seedVal : Int) (f : Flags) (cap80 : String) (width height : Int)
    (theme : String) : List String :=
  let palette := themesGet theme
  (coreSt seedVal f width height theme).1
    ++ [text_el ((24 : Int) : ℚ) ((height - 12 : Int) : ℚ) ("Prompt: " ++ cap80) palette.ink]
    ++ ["</svg>"]

/-- Modelled from the spec: Python's built-in `hash` on strings, which is
salted per process (the spec's "ecosystem-specific, randomized-per-process
hash", section 9); the salt is the extra first argument. -/
def pyHash (salt : Nat) (s : String) : Int :=
  (s.toList.foldl (fun a c => (a * 1000003 + c.toNat) % 2305843009213693951) salt : Nat)

/-- `abs(hash(prompt)) % (2**32)` of src/main.py line 157: the seed substitute
used when no (truthy) seed is supplied. -/
def fallbackSeed (salt : Nat) (prompt : String) : Int :=
  ((pyHash salt prompt).natAbs % (2 ^ 32) : Nat)

/-- `seed or abs(hash(prompt)) % (2**32)` of src/main.py line 157: Python's
`or` takes the right operand when `seed` is `None` *or* `0` (both falsy). -/
def effectiveSeed (salt : Nat) (prompt : String) (seed : Option Int) : Int :=
  match seed with
  | none => fallbackSeed salt prompt
  | some s => if s = 0 then fallbackSeed salt prompt else s

/-- The fragment list of `generate_sketch_svg` (src/main.py lines 156-250).
The prompt is consumed exactly three times: hashed for the fallback seed
(line 157), lower-cased for the classifier (line 163), and truncated to 80
characters for the caption (line 247). -/
def sketchParts (salt : Nat) (prompt : String) (width height : Int) (seed : Option Int)
    (theme : String) : List String :=
  sketchCore (effectiveSeed salt prompt seed) (classify prompt) (pyTake 80 prompt)
    width height theme

/-- `generate_sketch_svg` of src/main.py lines 156-250: the final document is
the newline-join of the fragment list (line 250).  The `salt` argument makes
the process hash salt of `hash(prompt)` explicit; it is read only through
`pyHash` on the no-seed / zero-seed path. -/
def generate_sketch_svg (salt : Nat) (prompt : String) (width height : Int)
    (seed : Option Int) (theme : String) : String :=
  joinNl (sketchParts salt prompt width height seed theme)

/-- The six flagged UI blocks, for stating the layout-composition claim. -/
inductive UiBlock
  | header
  | avatar
  | form
  | cards
  | listB
  | chart
deriving DecidableEq

/-- Modelled from the spec: the fixed emission order of the layout composer,
"Header, Avatar, Form, Cards, List, Chart". -/
def specBlockOrder : List UiBlock :=
  [UiBlock.header, UiBlock.avatar, UiBlock.form, UiBlock.cards, UiBlock.listB, UiBlock.chart]

/-- The classification flag that guards each block. -/
def flagOf (f : Flags) : UiBlock → Bool
  | UiBlock.header => f.header
  | UiBlock.avatar => f.avatar
  | UiBlock.form => f.form
  | UiBlock.cards => f.cards
  | UiBlock.listB => f.list
  | UiBlock.chart => f.chart

/-- The renderer of each block (the source block bodies). -/
def blockRenderer (margin inner_w : Int) (ink accent : String) :
    UiBlock → Int → Rng → List String × Int × Rng
  | UiBlock.header => headerBlock margin inner_w ink accent
  | UiBlock.avatar => avatarBlock margin ink accent
  | UiBlock.form => formBlock margin inner_w ink accent
  | UiBlock.cards => cardsBlock margin inner_w ink
  | UiBlock.listB => listBlock margin inner_w ink
  | UiBlock.chart => chartBlock margin inner_w ink accent

/-- Append a block's fragments to the layout state unconditionally. -/
def applyBlk (blk : Int → Rng → List String × Int × Rng) (st : LayoutSt) : LayoutSt :=
  let out := blk st.2.1 st.2.2
  (st.1 ++ out.1, out.2.1, out.2.2)

/-- Modelled from the spec (claim C5 wording): the fallback block is a filled
"Title" block plus, 80 lower, an unfilled placeholder rectangle of height 160
labeled "Your sketch will appear here". -/
def specFallback (margin inner_w : Int) (ink accent : String) (y : Int) (r : Rng) :
    List String × Int × Rng :=
  let (title, r) := rough_rect r (margin : ℚ) (y : ℚ) (inner_w : ℚ) ((60 : Int) : ℚ) ink
    (some accent)
  let lbl := text_el ((margin + 16 : Int) : ℚ) ((y + 36 : Int) : ℚ) "Title" ink
  let (ph, r) := rough_rect r (margin : ℚ) ((y + 80 : Int) : ℚ) (inner_w : ℚ) ((160 : Int) : ℚ)
    ink none
  let phl := text_el ((margin + 16 : Int) : ℚ) ((y + 80 + 40 : Int) : ℚ)
    "Your sketch will appear here" ink
  ([title, lbl, ph, phl], y + 80, r)

/-- Modelled from the spec (claim C5 wording): emit, in the fixed order of
`specBlockOrder`, exactly the blocks whose flag is true, then emit the
fallback block if and only if all six flags are false. -/
def specLayout (f : Flags) (margin inner_w : Int) (ink accent : String) (st : LayoutSt) :
    LayoutSt :=
  let st1 := (specBlockOrder.filter (flagOf f)).foldl
    (fun st b => applyBlk (blockRenderer margin inner_w ink accent b) st) st
  if f.header = false ∧ f.list = false ∧ f.form = false ∧ f.cards = false ∧ f.chart = false
      ∧ f.avatar = false
  then applyBlk (specFallback margin inner_w ink accent) st1
  else st1

/-- Modelled from the spec (claim C8 wording): 18 angles at 20-degree steps,
from 0 inclusive to 360 exclusive. -/
def roughCircleSpecAngles : List Nat := (List.range 18).map (fun i => 20 * i)

/-- Modelled from the spec (claim C8 wording): for each base angle, the angle
is jittered with scale 2 degrees and the radius with scale 1.5, and the
resulting point is formatted. -/
def specCirclePts (r : Rng) (cx cy rad : ℚ) : List Nat → List String × Rng
  | [] => ([], r)
  | a :: rest =>
    let (ja, r1) := jitter r (mkRat 0 1) (mkRat 2 1)
    let ang := radiansQ (qAdd ((a : Int) : ℚ) ja)
    let (jr, r2) := jitter r1 (mkRat 0 1) (mkRat 3 2)
    let rr := qAdd rad jr
    let (tail, r3) := specCirclePts r2 cx cy rad rest
    ((fmt1 (qAdd cx (qMul rr (cosQ ang))) ++ "," ++ fmt1 (qAdd cy (qMul rr (sinQ ang)))) :: tail,
      r3)

/-- Modelled from the spec (claim C8 wording): an optional filled circle at
opacity 0.1 when fill is given, then twice a polyline over the 18 jittered
points, stroke width 1.6, opacity 0.9. -/
def roughCircleSpec (r : Rng) (cx cy rad : ℚ) (stroke : String) (fill : Option String) :
    String × Rng :=
  let head : List String :=
    match fill with
    | some f =>
      ["<circle cx=\"" ++ fmt1 cx ++ "\" cy=\"" ++ fmt1 cy ++ "\" r=\"" ++ fmt1 rad
        ++ "\" fill=\"" ++ f ++ "\" opacity=\"0.1\" />"]
    | none => []
  let (pts1, r) := specCirclePts r cx cy rad roughCircleSpecAngles
  let (pts2, r) := specCirclePts r cx cy rad roughCircleSpecAngles
  (joinNl (head ++
    ["<polyline points=\"" ++ joinSp pts1 ++ "\" fill=\"none\" stroke=\"" ++ stroke
      ++ "\" stroke-width=\"1.6\" opacity=\"0.9\" />",
     "<polyline points=\"" ++ joinSp pts2 ++ "\" fill=\"none\" stroke=\"" ++ stroke
      ++ "\" stroke-width=\"1.6\" opacity=\"0.9\" />"]), r)

/-- Modelled from the spec: CPython converts an `int` to a binary64 float at
`jitter`'s `val + ...` (src/main.py line 91), at every `{v:.1f}` format of an
integer-typed value (lines 104, 112, 123, 132, 139), and at the divisions
that mix integers into floats (lines 206, 231); the conversion raises
`OverflowError` at the top of the double range.  The exact cutoff is the
round-half-even boundary `2^1024 - 2^970`; integers at the boundary itself
differ from this test by at most one unit, and no verified statement sits
near the boundary. -/
def floatConvertible (n : Int) : Bool := n.natAbs < 2 ^ 1024 - 2 ^ 970

/-- The integers the header block (src/main.py lines 182-185) converts to
floats: the filled rectangle formats `margin`, `y`, `inner_w`, `60`; its four
`rough_line` edges jitter the corner coordinates `margin`, `y`,
`margin + inner_w`, `y + 60`; the label sits at `(margin+16, y+36)`. -/
def headerConverted (m iw y : Int) : List Int :=
  [m, y, iw, 60, m + iw, y + 60, m + 16, y + 36]

/-- The integers the avatar block (src/main.py lines 188-191) converts: the
filled circle formats and the point loop jitters `cx = margin+32`,
`cy = y+32`, `r = 24` (plus small constants); the label sits at
`(margin+72, y+38)`. -/
def avatarConverted (m y : Int) : List Int :=
  [m + 32, y + 32, 24, m + 72, y + 38]

/-- The integers the form block (src/main.py lines 194-200) converts: the
corners and format arguments of its three rectangles and the positions of its
two labels. -/
def formConverted (m iw y : Int) : List Int :=
  [m, y, iw, 120, m + iw, y + 120, m + 16, y + 28,
   m + 12, y + 40, m + 12 + (iw - 24), y + 40 + 28, m + 16, y + 80,
   m + 12, y + 90, 120, 28, m + 12 + 120, y + 90 + 28]

/-- The integers the cards block (src/main.py lines 203-214) converts: the
cell x-coordinates and widths are already floats (`cw` is a true-division
result, checked in `renderConvertible`), so the converted integers are
`margin` (added to a float in `x = margin + c * (cw + gap)`), the row
y-coordinates `y` and `y + 114`, the cell corners at `+100`, and the label
rows at `+24`. -/
def cardsConverted (m y : Int) : List Int :=
  [m, y, y + 100, y + 24, y + 114, y + 114 + 100, y + 114 + 24]

/-- The integers the list block (src/main.py lines 217-223) converts: the
outer rectangle's corners, and per row `i < 5` the label position
`(margin+16, y+24+28i)` and the divider endpoints
`(margin+10, y+30+28i)`-`(margin+inner_w-10, y+30+28i)`. -/
def listConverted (m iw y : Int) : List Int :=
  [m, y, m + iw, y + 160,
   m + 16, y + 24, y + 52, y + 80, y + 108, y + 136,
   m + 10, m + iw - 10, y + 30, y + 58, y + 86, y + 114, y + 142]

/-- The integers the chart block (src/main.py lines 226-237) converts: the
outer rectangle's corners; `inner_w` itself (divided by the float `9.0` for
the bar width, line 231); and the bar rectangles' integer coordinates
`y + 160 - bar_h - 10`, `bar_h` and `y + 150`, with `bar_h` drawn in
[40, 130] — since the cursor is nonnegative in every render these lie between
the listed bracketing values `y + 20`, `y + 110`, `y + 150` and `130`, which
stand in for them. -/
def chartConverted (m iw y : Int) : List Int :=
  [m, y, m + iw, y + 160, iw, y + 20, y + 110, y + 150, 130]

/-- The integers the fallback block (src/main.py lines 240-245) converts: the
corners and format arguments of the title and placeholder rectangles and the
two label positions. -/
def fallbackConverted (m iw y : Int) : List Int :=
  [m, y, iw, 60, m + iw, y + 60, m + 16, y + 36,
   m, y + 80, m + iw, y + 80 + 160, m + 16, y + 80 + 40]

/-- The integer values the executed render trace sends to CPython's
int-to-float conversions, as a function of the flags, width and height: the
guarded blocks contribute in source order, the cursor advances by the same
constants as in the layout, and the caption (src/main.py line 247) always
contributes `margin` and `height - 12`.  Order and multiplicity are
irrelevant: the render raises `OverflowError` exactly when some converted
value is out of the double range, whichever conversion is reached first. -/
def convertedInts (f : Flags) (width height : Int) : List Int :=
  let m : Int := 24
  let iw : Int := width - m * 2
  let st : List Int × Int := ([], 24)
  let st := cond f.header (st.1 ++ headerConverted m iw st.2, st.2 + 80) st
  let st := cond f.avatar (st.1 ++ avatarConverted m st.2, st.2 + 72) st
  let st := cond f.form (st.1 ++ formConverted m iw st.2, st.2 + 140) st
  let st := cond f.cards (st.1 ++ cardsConverted m st.2, st.2 + 236) st
  let st := cond f.list (st.1 ++ listConverted m iw st.2, st.2 + 180) st
  let st := cond f.chart (st.1 ++ chartConverted m iw st.2, st.2 + 180) st
  let st := cond (!(f.header || f.list || f.form || f.cards || f.chart || f.avatar))
    (st.1 ++ fallbackConverted m iw st.2, st.2 + 80) st
  st.1 ++ [m, height - 12]

/-- Does a render with these flags, width and height stay within the double
range at every conversion?  Besides the converted integers this checks the
cards block's integer true division `cw = (inner_w - 28) / 3`
(src/main.py line 206), which CPython rounds to a float and which overflows
when the quotient's magnitude — `natAbs / 3`, up to one unit at the rounding
boundary — reaches the double range. -/
def renderConvertible (f : Flags) (width height : Int) : Bool :=
  (convertedInts f width height).all floatConvertible &&
  (!f.cards || ((width - 76).natAbs / 3 < 2 ^ 1024 - 2 ^ 970 : Bool))

/-- The render as CPython executes it: the document of `generate_sketch_svg`
when every int-to-float conversion of the trace stays in the double range,
and the uncaught `OverflowError` otherwise. -/
def generate_sketch_svg_checked (salt : Nat) (prompt : String) (width height : Int)
    (seed : Option Int) (theme : String) : Except String String :=
  if renderConvertible (classify prompt) width height then
    Except.ok (generate_sketch_svg salt prompt width height seed theme)
  else
    Except.error "OverflowError: int too large to convert to float"

/-! ## Shared lemmas about the embedding -/

/-- A guarded layout step only ever appends fragments. -/
theorem emit_parts (b : Bool) (blk : Int → Rng → List String × Int × Rng) (st : LayoutSt) :
    ∃ ps, (emit b blk st).1 = st.1 ++ ps := by
  cases b with
  | false => exact ⟨[], (List.append_nil _).symm⟩
  | true => exact ⟨(blk st.2.1 st.2.2).1, rfl⟩

/-- A fold of guarded layout steps only ever appends fragments. -/
theorem foldl_emit_parts (l : List (Bool × (Int → Rng → List String × Int × Rng))) :
    ∀ st : LayoutSt, ∃ ps, (l.foldl (fun st bb => emit bb.1 bb.2 st) st).1 = st.1 ++ ps := by
  induction l with
  | nil => exact fun st => ⟨[], (List.append_nil _).symm⟩
  | cons bb rest ih =>
    intro st
    obtain ⟨ps₁, h₁⟩ := emit_parts bb.1 bb.2 st
    obtain ⟨ps₂, h₂⟩ := ih (emit bb.1 bb.2 st)
    exact ⟨ps₁ ++ ps₂, by rw [List.foldl_cons, h₂, h₁, List.append_assoc]⟩

/-- The newline join of a list with a known last element ends in that
element. -/
theorem joinNl_concat (l : List String) (b : String) : ∃ m, joinNl (l ++ [b]) = m ++ b := by
  induction l with
  | nil => exact ⟨"", rfl⟩
  | cons a t ih =>
    obtain ⟨m, hm⟩ := ih
    cases t with
    | nil => exact ⟨a ++ "\n", rfl⟩
    | cons c u =>
      refine ⟨a ++ "\n" ++ m, ?_⟩
      show a ++ "\n" ++ joinNl ((c :: u) ++ [b]) = a ++ "\n" ++ m ++ b
      rw [hm, String.append_assoc (a ++ "\n") m b]

/-- The newline join of a list with a nonempty tail starts with its head and
the separator. -/
theorem joinNl_cons_ne (a : String) (l : List String) (h : l ≠ []) :
    joinNl (a :: l) = a ++ "\n" ++ joinNl l := by
  cases l with
  | nil => exact absurd rfl h
  | cons b u => rfl

/-- The boolean substring test agrees with the infix relation on lists. -/
theorem containsL_infix (n : List Char) : ∀ h : List Char, containsL n h = true ↔ n <:+: h := by
  intro h
  induction h with
  | nil =>
    simp [containsL, List.isEmpty_iff, List.infix_nil]
  | cons c t ih =>
    simp [containsL, List.infix_cons_iff, ih]

/-- Every character of a single-character replacement's output comes from the
replacement string or is an unreplaced character of the input. -/
theorem mem_replaceChar (s : String) (pat : Char) (rep : String) (c : Char) :
    c ∈ (replaceChar s pat rep).toList → c ∈ rep.toList ∨ (c ∈ s.toList ∧ c ≠ pat) := by
  show c ∈ (s.toList.foldr (fun c acc => if c = pat then rep.toList ++ acc else c :: acc) []) →
    c ∈ rep.toList ∨ (c ∈ s.toList ∧ c ≠ pat)
  induction s.toList with
  | nil => intro h; exact absurd h (List.not_mem_nil c)
  | cons d t ih =>
    intro h
    by_cases hd : d = pat
    · rw [List.foldr_cons, if_pos hd] at h
      rcases List.mem_append.1 h with h1 | h2
      · exact Or.inl h1
      · rcases ih h2 with h3 | ⟨h4, h5⟩
        · exact Or.inl h3
        · exact Or.inr ⟨List.mem_cons_of_mem d h4, h5⟩
    · rw [List.foldr_cons, if_neg hd] at h
      rcases List.mem_cons.1 h with h1 | h2
      · exact Or.inr ⟨h1 ▸ List.mem_cons_self d t, h1 ▸ hd⟩
      · rcases ih h2 with h3 | ⟨h4, h5⟩
        · exact Or.inl h3
        · exact Or.inr ⟨List.mem_cons_of_mem d h4, h5⟩

/-- The escaped text never contains a raw opening angle bracket. -/
theorem pyEscape_no_lt (s : String) : '<' ∉ (pyEscape s).toList := by
  intro h
  rcases mem_replaceChar _ _ _ _ h with h1 | ⟨h2, _⟩
  · exact absurd h1 (by decide)
  · rcases mem_replaceChar _ _ _ _ h2 with h3 | ⟨_, h4⟩
    · exact absurd h3 (by decide)
    · exact h4 rfl

/-- The escaped text never contains a raw closing angle bracket. -/
theorem pyEscape_no_gt (s : String) : '>' ∉ (pyEscape s).toList := by
  intro h
  rcases mem_replaceChar _ _ _ _ h with h1 | ⟨_, h2⟩
  · exact absurd h1 (by decide)
  · exact h2 rfl

/-- Dictionary lookup of a name that is neither built-in theme returns the
default slate palette. -/
theorem themesGet_of_ne (t : String) (h1 : t ≠ "slate") (h2 : t ≠ "sand") :
    themesGet t = themesGet "slate" := by
  have e1 : (("slate" : String) == t) = false := by
    rw [beq_eq_false_iff_ne]; exact fun e => h1 e.symm
  have e2 : (("sand" : String) == t) = false := by
    rw [beq_eq_false_iff_ne]; exact fun e => h2 e.symm
  simp [themesGet, THEMES, List.find?, e1, e2]

/-- A nonzero explicit seed is taken as given by `seed or ...`. -/
theorem effectiveSeed_some (salt : Nat) (p : String) (s : Int) (hs : s ≠ 0) :
    effectiveSeed salt p (some s) = s := by
  simp [effectiveSeed, hs]

/-- The source circle-point loop computes the same points as its
specification-side reconstruction. -/
theorem circlePts_eq_spec (cx cy rad : ℚ) :
    ∀ (l : List Nat) (r : Rng), circlePts r cx cy rad l = specCirclePts r cx cy rad l := by
  intro l
  induction l with
  | nil => intro r; rfl
  | cons a t ih => intro r; simp [circlePts, specCirclePts, ih]

/-- The circle-point loop emits one point per angle. -/
theorem circlePts_length (cx cy rad : ℚ) :
    ∀ (l : List Nat) (r : Rng), (circlePts r cx cy rad l).1.length = l.length := by
  intro l
  induction l with
  | nil => intro r; rfl
  | cons a t ih => intro r; simp [circlePts, ih]

/-- The source's `range(0, 360, 20)` is the spec's 18 angles at 20-degree
steps. -/
theorem pyRange_angles : pyRange 0 360 20 = roughCircleSpecAngles := by decide

/-- A pattern that contains no newline is a prefix of `xs ++ '\n' :: ys`
exactly when it is a prefix of `xs`. -/
theorem isPrefixOf_sep (ys : List Char) :
    ∀ (pat xs : List Char), '\n' ∉ pat →
      pat.isPrefixOf (xs ++ '\n' :: ys) = pat.isPrefixOf xs := by
  intro pat
  induction pat with
  | nil => intro xs _; simp [List.isPrefixOf]
  | cons p pr ih =>
    intro xs hnl
    cases xs with
    | nil =>
      have hp : (p == '\n') = false := by
        rw [beq_eq_false_iff_ne]
        exact fun e => hnl (e ▸ List.mem_cons_self p pr)
      simp [List.isPrefixOf, hp]
    | cons x xt =>
      have : '\n' ∉ pr := fun h => hnl (List.mem_cons_of_mem p h)
      simp [List.isPrefixOf, ih xt this]

/-- Occurrences of a newline-free pattern split at a newline separator. -/
theorem countOccL_sep (ys : List Char) (pat : List Char) (hne : pat ≠ []) (hnl : '\n' ∉ pat) :
    ∀ xs : List Char, countOccL pat (xs ++ '\n' :: ys) = countOccL pat xs + countOccL pat ys := by
  intro xs
  induction xs with
  | nil =>
    rcases pat with _ | ⟨p, pr⟩
    · exact absurd rfl hne
    · have hp : (p == '\n') = false := by
        rw [beq_eq_false_iff_ne]
        exact fun e => hnl (e ▸ List.mem_cons_self p pr)
      simp [countOccL, List.isPrefixOf, hp]
  | cons x xt ih =>
    have hpre : pat.isPrefixOf ((x :: xt) ++ '\n' :: ys) = pat.isPrefixOf (x :: xt) :=
      isPrefixOf_sep ys pat (x :: xt) hnl
    calc countOccL pat ((x :: xt) ++ '\n' :: ys)
        = (if pat.isPrefixOf ((x :: xt) ++ '\n' :: ys) then 1 else 0)
            + countOccL pat (xt ++ '\n' :: ys) := rfl
      _ = (if pat.isPrefixOf (x :: xt) then 1 else 0)
            + (countOccL pat xt + countOccL pat ys) := by rw [hpre, ih]
      _ = countOccL pat (x :: xt) + countOccL pat ys := by
            show _ = (if pat.isPrefixOf (x :: xt) then 1 else 0) + countOccL pat xt
              + countOccL pat ys
            omega

/-- String append acts as list append on the character lists. -/
theorem strToList_append (a b : String) : (a ++ b).toList = a.toList ++ b.toList := rfl

/-- Occurrences of a nonempty newline-free pattern in a newline join are the
fragment-wise occurrences summed: no occurrence can span the separator. -/
theorem countOcc_joinNl (pat : List Char) (hne : pat ≠ []) (hnl : '\n' ∉ pat) :
    ∀ l : List String,
      countOccL pat (joinNl l).toList = (l.map (fun s => countOccL pat s.toList)).sum := by
  intro l
  induction l with
  | nil => simp [joinNl, countOccL]
  | cons a t ih =>
    cases t with
    | nil => simp [joinNl]
    | cons b u =>
      have e : (joinNl (a :: b :: u)).toList
          = a.toList ++ '\n' :: (joinNl (b :: u)).toList := by
        show (a ++ "\n" ++ joinNl (b :: u)).toList = _
        rw [strToList_append, strToList_append, List.append_assoc]
        rfl
      rw [e, countOccL_sep _ pat hne hnl, ih]
      simp [List.map_cons, List.sum_cons]

/-! ## The claims -/

/-- C1 (amended): for any fixed (prompt, width, height, seed, theme) with the
seed non-null and non-zero, two invocations of the rendering core — modelled
as renders under two arbitrary process hash salts — produce byte-identical
SVG output.  (For seed = 0 the code falls back to the process-salted prompt
hash, see the counterexample.) -/
theorem c1_nonzero_seed_determinism :
    ∀ (salt1 salt2 : Nat) (p : String) (w h : Int) (s : Int) (t : String),
    s ≠ 0 →
    generate_sketch_svg salt1 p w h (some s) t = generate_sketch_svg salt2 p w h (some s) t := by
  intro salt1 salt2 p w h s t hs
  simp only [generate_sketch_svg, sketchParts]
  rw [effectiveSeed_some salt1 p s hs, effectiveSeed_some salt2 p s hs]

/-- C1 witness: the determinism theorem at a concrete input, with the nonzero
hypothesis discharged. -/
theorem c1_nonzero_seed_determinism_witness :
    generate_sketch_svg 3 "a" 10 10 (some 5) "slate"
      = generate_sketch_svg 4 "a" 10 10 (some 5) "slate" :=
  c1_nonzero_seed_determinism 3 4 "a" 10 10 5 "slate" (by decide)

/-- C1 counterexample: with the non-null seed 0 and all five render parameters
fixed, two invocations in processes with different string-hash salts produce
different bytes — line 157's `seed or ...` discards the falsy seed 0 and uses
the process-dependent prompt hash. -/
theorem c1_zero_seed_salt_counterexample :
    generate_sketch_svg 0 "a" 10 10 (some 0) "slate"
      ≠ generate_sketch_svg 1 "a" 10 10 (some 0) "slate" := by decide

/-- C2: at the failing input (prompt "hi", seed null) the seed substitute and
therefore the rendered bytes depend on the process hash salt, because line 157
seeds from Python's built-in salted `hash(prompt)`; the claim (and spec
sections 4.1 and 9) require a stable, platform-independent hash. -/
theorem c2_prompt_hash_process_dependent :
    fallbackSeed 0 "hi" ≠ fallbackSeed 1 "hi" ∧
    generate_sketch_svg 0 "hi" 10 10 none "slate"
      ≠ generate_sketch_svg 1 "hi" 10 10 none "slate" := by
  constructor
  · decide
  · decide

/-- Over the exact-rational number model the render always produces one
complete SVG document: the `<svg ...>` root tag, then the body, closed by
`</svg>` — for any salt, prompt, width, height, seed and theme. -/
theorem generate_always_complete_svg :
    ∀ (salt : Nat) (p : String) (w h : Int) (s : Option Int) (t : String),
    ∃ mid, generate_sketch_svg salt p w h s t = svgOpenTag w h ++ "\n" ++ mid ++ "</svg>" := by
  intro salt p w h s t
  simp only [generate_sketch_svg, sketchParts, sketchCore, coreSt]
  obtain ⟨ps, hps⟩ := foldl_emit_parts _
    ([svgOpenTag w h, bgTag (themesGet t).bg], (24 : Int), rng (effectiveSeed salt p s))
  rw [hps]
  have e1 : ([svgOpenTag w h, bgTag (themesGet t).bg] ++ ps)
      ++ [text_el ((24 : Int) : ℚ) ((h - 12 : Int) : ℚ)
            ("Prompt: " ++ pyTake 80 p) (themesGet t).ink]
      ++ ["</svg>"]
      = svgOpenTag w h :: ((bgTag (themesGet t).bg ::
          (ps ++ [text_el ((24 : Int) : ℚ) ((h - 12 : Int) : ℚ)
            ("Prompt: " ++ pyTake 80 p) (themesGet t).ink])) ++ ["</svg>"]) := by
    simp
  rw [e1, joinNl_cons_ne _ _ (by simp)]
  obtain ⟨m, hm⟩ := joinNl_concat (bgTag (themesGet t).bg ::
    (ps ++ [text_el ((24 : Int) : ℚ) ((h - 12 : Int) : ℚ)
      ("Prompt: " ++ pyTake 80 p) (themesGet t).ink])) "</svg>"
  exact ⟨m, by rw [hm, ← String.append_assoc]⟩

set_option maxHeartbeats 12000000 in
/-- Every converted value of a render whose width and height have magnitude
at most 2^1000 is comfortably inside the double range, for any combination of
flags. -/
theorem renderConvertible_of_bounds (f : Flags) (w h : Int)
    (hw : w.natAbs ≤ 2 ^ 1000) (hh : h.natAbs ≤ 2 ^ 1000) :
    renderConvertible f w h = true := by
  rcases f with ⟨fh, fl, ff, fc, fch, fa⟩
  cases fh <;> cases fl <;> cases ff <;> cases fc <;> cases fch <;> cases fa <;>
    · simp only [renderConvertible, convertedInts, headerConverted, avatarConverted,
        formConverted, cardsConverted, listConverted, chartConverted, fallbackConverted,
        floatConvertible, cond, Bool.or_self, Bool.or_true, Bool.true_or,
        Bool.or_false, Bool.false_or, Bool.not_true, Bool.not_false,
        List.nil_append, List.cons_append, List.append_nil, List.all_cons, List.all_nil,
        Bool.and_eq_true, Bool.and_true, Bool.true_and, decide_eq_true_eq, and_true]
      omega

/-- C3 (amended): for every input whose width and height have magnitude at
most 2^1000 — including the empty prompt, zero or negative dimensions and an
unknown theme — the render succeeds (no int-to-float conversion of the trace
overflows) and returns one complete SVG document; outside the double range
the error branch is reachable, see the counterexample. -/
theorem c3_success_within_double_range :
    ∀ (salt : Nat) (p : String) (w h : Int) (s : Option Int) (t : String),
    w.natAbs ≤ 2 ^ 1000 → h.natAbs ≤ 2 ^ 1000 →
    ∃ mid, generate_sketch_svg_checked salt p w h s t
      = Except.ok (svgOpenTag w h ++ "\n" ++ mid ++ "</svg>") := by
  intro salt p w h s t hw hh
  obtain ⟨mid, hm⟩ := generate_always_complete_svg salt p w h s t
  refine ⟨mid, ?_⟩
  rw [generate_sketch_svg_checked, if_pos (renderConvertible_of_bounds (classify p) w h hw hh),
    hm]

/-- C3 witness: the amended theorem at the default 800 by 500 canvas with an
empty prompt, both bound hypotheses discharged by evaluation. -/
theorem c3_success_within_double_range_witness :
    ∃ mid, generate_sketch_svg_checked 0 "" 800 500 none "slate"
      = Except.ok (svgOpenTag 800 500 ++ "\n" ++ mid ++ "</svg>") :=
  c3_success_within_double_range 0 "" 800 500 none "slate" (by decide) (by decide)

/-- C3 counterexample: at width 800, height 10^400, empty prompt, the render
does not succeed and does not return a document: `height` exceeds the binary64
range, so CPython raises `OverflowError` converting the caption's
`y = height - 12` (src/main.py line 247 formatting through line 139),
refuting "no input makes it fail or raise". -/
theorem c3_overflow_counterexample :
    generate_sketch_svg_checked 0 "" 800 (((10 : Nat) ^ 400 : Nat) : Int) none "slate"
      = Except.error "OverflowError: int too large to convert to float" := rfl

/-- C4: each of the six classification flags is true exactly when the
lower-cased prompt contains one of its fixed keywords as a substring; for the
prompt "a login form with a search button" only the form flag is set and the
rendered output contains exactly one "Input" and one "Button" occurrence. -/
theorem c4_keyword_flags_and_labels :
    (∀ p : String,
      ((classify p).header = true ↔
        ∃ k ∈ [ "header", "title", "navbar", "hero" ], k.toList <:+: (pyLower p).toList) ∧
      ((classify p).list = true ↔
        ∃ k ∈ [ "list", "items", "menu", "sidebar" ], k.toList <:+: (pyLower p).toList) ∧
      ((classify p).form = true ↔
        ∃ k ∈ [ "form", "input", "search", "login", "button" ], k.toList <:+: (pyLower p).toList) ∧
      ((classify p).cards = true ↔
        ∃ k ∈ [ "cards", "grid", "gallery", "images", "thumbnails", "card" ],
          k.toList <:+: (pyLower p).toList) ∧
      ((classify p).chart = true ↔
        ∃ k ∈ [ "chart", "graph", "analytics" ], k.toList <:+: (pyLower p).toList) ∧
      ((classify p).avatar = true ↔
        ∃ k ∈ [ "avatar", "profile", "user" ], k.toList <:+: (pyLower p).toList)) ∧
    classify "a login form with a search button" = ⟨false, false, true, false, false, false⟩ ∧
    countOcc (generate_sketch_svg 0 "a login form with a search button" 800 500 (some 1) "slate")
      "Input" = 1 ∧
    countOcc (generate_sketch_svg 0 "a login form with a search button" 800 500 (some 1) "slate")
      "Button" = 1 := by
  refine ⟨fun p => ?_, by decide, ?_, ?_⟩
  · refine ⟨?_, ?_, ?_, ?_, ?_, ?_⟩ <;>
      simp [classify, containsSub, List.any_eq_true, containsL_infix]
  · calc countOcc (generate_sketch_svg 0 "a login form with a search button" 800 500
          (some 1) "slate") "Input"
        = countOccL "Input".toList
            (joinNl (sketchParts 0 "a login form with a search button" 800 500
              (some 1) "slate")).toList := rfl
      _ = ((sketchParts 0 "a login form with a search button" 800 500 (some 1) "slate").map
            (fun s => countOccL "Input".toList s.toList)).sum :=
          countOcc_joinNl "Input".toList (by decide) (by decide) _
      _ = 1 := by decide
  · calc countOcc (generate_sketch_svg 0 "a login form with a search button" 800 500
          (some 1) "slate") "Button"
        = countOccL "Button".toList
            (joinNl (sketchParts 0 "a login form with a search button" 800 500
              (some 1) "slate")).toList := rfl
      _ = ((sketchParts 0 "a login form with a search button" 800 500 (some 1) "slate").map
            (fun s => countOccL "Button".toList s.toList)).sum :=
          countOcc_joinNl "Button".toList (by decide) (by decide) _
      _ = 1 := by decide

/-- C5: the source layout equals the specification-side composition: the base
document, then — in the fixed order header, avatar, form, cards, list,
chart — exactly the blocks whose flag is true, then the fallback block (filled
"Title" block plus unfilled height-160 placeholder labeled "Your sketch will
appear here") if and only if all six flags are false, then the caption and the
closing tag. -/
theorem c5_layout_fixed_order_fallback :
    ∀ (sv : Int) (f : Flags) (cap : String) (w h : Int) (t : String),
    sketchCore sv f cap w h t =
      (specLayout f 24 (w - 24 * 2) (themesGet t).ink (themesGet t).accent
          ([svgOpenTag w h, bgTag (themesGet t).bg], 24, rng sv)).1
        ++ [text_el ((24 : Int) : ℚ) ((h - 12 : Int) : ℚ) ("Prompt: " ++ cap) (themesGet t).ink]
        ++ ["</svg>"] := by
  intro sv f cap w h t
  rcases f with ⟨fh, fl, ff, fc, fch, fa⟩
  cases fh <;> cases fl <;> cases ff <;> cases fc <;> cases fch <;> cases fa <;> rfl

/-- C6: a theme name that is neither "slate" nor "sand" renders byte-identically
to "slate" for every salt, prompt, dimensions and seed, and the two built-in
palettes are slate = (#0f172a, #93c5fd, #60a5fa) and
sand = (#f1f5f9, #0f172a, #64748b). -/
theorem c6_theme_fallback :
    (∀ (salt : Nat) (p : String) (w h : Int) (s : Option Int) (t : String),
      t ≠ "slate" → t ≠ "sand" →
      generate_sketch_svg salt p w h s t = generate_sketch_svg salt p w h s "slate") ∧
    themesGet "slate" = ⟨"#0f172a", "#93c5fd", "#60a5fa"⟩ ∧
    themesGet "sand" = ⟨"#f1f5f9", "#0f172a", "#64748b"⟩ := by
  refine ⟨?_, rfl, rfl⟩
  intro salt p w h s t h1 h2
  simp only [generate_sketch_svg, sketchParts, sketchCore, coreSt]
  rw [themesGet_of_ne t h1 h2]

/-- C6 witness: the unknown theme name "unknown_xyz" at a concrete input,
with both inequality hypotheses discharged. -/
theorem c6_theme_fallback_witness :
    generate_sketch_svg 0 "x" 8 8 (some 1) "unknown_xyz"
      = generate_sketch_svg 0 "x" 8 8 (some 1) "slate" :=
  c6_theme_fallback.1 0 "x" 8 8 (some 1) "unknown_xyz" (by decide) (by decide)

/-- C7: for every input the fragment list ends with the caption text element —
at x = 24, 12px above the bottom edge, in the theme's ink color, showing
"Prompt: " followed by the first 80 characters of the original prompt —
followed only by the closing tag; the text element escapes its content, the
escaped text never contains a raw angle bracket, and "&lt;script&gt;" is the
escape of "<script>". -/
theorem c7_caption_escaped :
    ∀ (salt : Nat) (p : String) (w h : Int) (s : Option Int) (t : String),
    (∃ pre, sketchParts salt p w h s t =
      pre ++ [text_el ((24 : Int) : ℚ) ((h - 12 : Int) : ℚ)
          ("Prompt: " ++ pyTake 80 p) (themesGet t).ink, "</svg>"]) ∧
    (∀ c : String, '<' ∉ (pyEscape c).toList ∧ '>' ∉ (pyEscape c).toList) ∧
    pyEscape "<script>" = "&lt;script&gt;" ∧
    (∀ (x y : ℚ) (c col : String), text_el x y c col =
      "<text x=\"" ++ fmt1 x ++ "\" y=\"" ++ fmt1 y ++ "\" fill=\"" ++ col
        ++ "\" font-family=\"Inter, system-ui, -apple-system, Segoe UI, Roboto\" font-size=\"14\" opacity=\"0.9\">"
        ++ pyEscape c ++ "</text>") := by
  intro salt p w h s t
  refine ⟨?_, fun c => ⟨pyEscape_no_lt c, pyEscape_no_gt c⟩, by decide, fun x y c col => rfl⟩
  refine ⟨(coreSt (effectiveSeed salt p s) (classify p) w h t).1, ?_⟩
  simp [sketchParts, sketchCore]

/-- C8: `rough_circle` equals its specification-side reconstruction — an
optional filled circle at opacity 0.1 when fill is given, then twice a
polyline (stroke width 1.6, opacity 0.9) over 18 points whose angles run over
0, 20, ..., 340 (0 inclusive to 360 exclusive), each angle jittered with scale
2 degrees and each radius with scale 1.5 — and the point loop emits exactly 18
points. -/
theorem c8_rough_circle_structure :
    (∀ (r : Rng) (cx cy rad : ℚ) (stroke : String) (fill : Option String),
      rough_circle r cx cy rad stroke fill = roughCircleSpec r cx cy rad stroke fill) ∧
    (∀ (r : Rng) (cx cy rad : ℚ),
      (circlePts r cx cy rad (pyRange 0 360 20)).1.length = 18) ∧
    roughCircleSpecAngles.length = 18 ∧
    (∀ a ∈ roughCircleSpecAngles, a < 360 ∧ a % 20 = 0) := by
  refine ⟨?_, ?_, by decide, by decide⟩
  · intro r cx cy rad stroke fill
    cases fill <;>
      simp [rough_circle, roughCircleSpec, circlePts_eq_spec, pyRange_angles, polylineEl]
  · intro r cx cy rad
    rw [circlePts_length]
    decide

/-- C9: an explicit seed of 0 is falsy for line 157's `seed or ...`, so for
every salt, prompt, dimensions and theme the render with seed 0 is
byte-identical to the render with seed null: both use the prompt-hash
fallback seed. -/
theorem c9_zero_seed_equals_null :
    ∀ (salt : Nat) (p : String) (w h : Int) (t : String),
    generate_sketch_svg salt p w h (some 0) t = generate_sketch_svg salt p w h none t := by
  intro salt p w h t
  simp [generate_sketch_svg, sketchParts, effectiveSeed]

/-- C10: with a fixed non-null, non-zero seed, a fixed width, height and
theme, two prompts with the same six classification flags and the same first
80 characters render byte-identically: the prompt reaches the output only
through the keyword flags and the truncated caption. -/
theorem c10_prompt_only_via_flags_and_caption :
    ∀ (salt : Nat) (p1 p2 : String) (w h : Int) (s : Int) (t : String),
    s ≠ 0 → classify p1 = classify p2 → pyTake 80 p1 = pyTake 80 p2 →
    generate_sketch_svg salt p1 w h (some s) t = generate_sketch_svg salt p2 w h (some s) t := by
  intro salt p1 p2 w h s t hs hc hcap
  simp only [generate_sketch_svg, sketchParts]
  rw [effectiveSeed_some salt p1 s hs, effectiveSeed_some salt p2 s hs, hc, hcap]

/-- C10 witness: two 81-character prompts that differ only in their final
character (beyond the 80-character caption cut) and carry the same flags, at a
concrete nonzero seed; all three hypotheses discharged by evaluation. -/
theorem c10_prompt_only_via_flags_and_caption_witness :
    generate_sketch_svg 0 ("form" ++ String.mk (List.replicate 76 'z') ++ "a") 10 10
        (some 7) "slate"
      = generate_sketch_svg 0 ("form" ++ String.mk (List.replicate 76 'z') ++ "b") 10 10
        (some 7) "slate" :=
  c10_prompt_only_via_flags_and_caption 0 ("form" ++ String.mk (List.replicate 76 'z') ++ "a")
    ("form" ++ String.mk (List.replicate 76 'z') ++ "b") 10 10 7 "slate"
    (by decide) (by decide) (by decide)
